import Mathlib

set_option linter.unusedVariables false

/-!
Shallow embedding of the customer-message classification service
(`app/llm.py`, `app/classifier.py`, `app/models.py`).

Python dicts/lists/strings/numbers returned by `json.loads` are embedded as
the inductive `Json`.  Python floats are embedded as rationals.  The external
OpenAI call is a black box: its observable outcome per attempt is a
`ModelResponse` (the call raised, or it returned text that either fails or
succeeds JSON decoding).  Python functions that can raise are embedded in
`Except PyErr`; the source's `try/except Exception` blocks become a `match`
mapping every `.error` to the fallback value, exactly as the code does.
Calls to `random.randint(1000, 9999)` are embedded by passing the drawn
number as an explicit `Nat` argument.
-/

/-- Exceptions that the embedded Python code can raise or observe. -/
inductive PyErr where
  | apiTimeout
  | apiRateLimit
  | apiNetworkError
  | jsonDecodeError
  | valueError
  | typeError
  | attributeError
  | keyError
deriving DecidableEq, Repr

/-- Values produced by `json.loads`: Python dict / list / str / number /
bool / None.  Objects are ordered key-value lists (Python dicts preserve
insertion order). -/
inductive Json where
  | null : Json
  | bool (b : Bool) : Json
  | num (q : Rat) : Json
  | str (s : String) : Json
  | arr (elems : List Json) : Json
  | obj (fields : List (String × Json)) : Json

/-- Observable outcome of one external model call attempt:
the call raised, or it returned text (`content none` = text that
`json.loads` rejects, `content (some j)` = text decoding to `j`). -/
inductive ModelResponse where
  | raise (e : PyErr)
  | content (parsed : Option Json)

/-- Models Python `str.startswith` on character lists: the second list is an
initial segment of the first. -/
def listStartsWith : List Char → List Char → Bool
  | _, [] => true
  | [], _ :: _ => false
  | c :: cs, d :: ds => c == d && listStartsWith cs ds

/-- Models Python `s.startswith(pre)` for strings. -/
def pyStartsWith (s pre : String) : Bool :=
  listStartsWith s.data pre.data

/-- Models Python substring containment `sub in s` on character lists. -/
def listHasSub (sub : List Char) : List Char → Bool
  | [] => sub.isEmpty
  | c :: rest => listStartsWith (c :: rest) sub || listHasSub sub rest

/-- Models Python `sub in s` for strings. -/
def strContainsSub (s sub : String) : Bool :=
  listHasSub sub.data s.data

/-- Models Python `s.lower()` (ASCII case folding, which covers every
message the source compares against). -/
def pyLower (s : String) : String := String.mk (s.data.map Char.toLower)

/-- Models Python `d[k] = v` on an ordered dict: replace the value at the
first occurrence of `k`, else append the new binding. -/
def setField (k : String) (v : Json) : List (String × Json) → List (String × Json)
  | [] => [(k, v)]
  | (k2, v2) :: rest =>
    if k2 == k then (k, v) :: rest else (k2, v2) :: setField k v rest

/-- Dict lookup: `some` value at key `k` when `j` is an object holding it. -/
def Json.get? : Json → String → Option Json
  | .obj fs, k => List.lookup k fs
  | _, _ => none

/-- Models Python `j[k] = v` for a dict `j` (identity on non-dicts; the
embedded code only applies it to values already known to be dicts). -/
def Json.set : Json → String → Json → Json
  | .obj fs, k, v => .obj (setField k v fs)
  | j, _, _ => j

mutual
/-- Models Python `==` between `json.loads` values. -/
def Json.beq : Json → Json → Bool
  | .null, .null => true
  | .bool a, .bool b => a == b
  | .num a, .num b => a == b
  | .str a, .str b => a == b
  | .arr as, .arr bs => Json.beqList as bs
  | .obj as, .obj bs => Json.beqFields as bs
  | _, _ => false

/-- Elementwise Python `==` on lists. -/
def Json.beqList : List Json → List Json → Bool
  | [], [] => true
  | a :: as, b :: bs => Json.beq a b && Json.beqList as bs
  | _, _ => false

/-- Pairwise Python `==` on dict field lists. -/
def Json.beqFields : List (String × Json) → List (String × Json) → Bool
  | [], [] => true
  | (k1, v1) :: as, (k2, v2) :: bs => k1 == k2 && Json.beq v1 v2 && Json.beqFields as bs
  | _, _ => false
end

/-- Models Python `k in j` (dict key membership, list element membership,
substring test on strings; `TypeError` on non-iterables). -/
def pyContains (j : Json) (k : String) : Except PyErr Bool :=
  match j with
  | .obj fs => .ok (List.lookup k fs).isSome
  | .arr xs => .ok (xs.any fun x => Json.beq x (.str k))
  | .str s => .ok (strContainsSub s k)
  | _ => .error .typeError

/-- Models Python `j[k]` with a string key: dict lookup (`KeyError` when
absent), `TypeError` on every other value. -/
def pyIndex (j : Json) (k : String) : Except PyErr Json :=
  match j with
  | .obj fs =>
    match List.lookup k fs with
    | some v => .ok v
    | none => .error .keyError
  | _ => .error .typeError

/-- Models Python `j.get(k, dflt)`: dict method, `AttributeError` on
non-dicts. -/
def pyGet (j : Json) (k : String) (dflt : Json) : Except PyErr Json :=
  match j with
  | .obj fs => .ok ((List.lookup k fs).getD dflt)
  | _ => .error .attributeError

/-- Models Python `j.startswith(pre)`: string method, `AttributeError` on
non-strings. -/
def pyAttrStartsWith (j : Json) (pre : String) : Except PyErr Bool :=
  match j with
  | .str s => .ok (pyStartsWith s pre)
  | _ => .error .attributeError

/-- Result of the `await openai...create(...)` call followed by
`json.loads(response.choices[0].message.content)`, as an exceptional value:
the call attempt either raised, produced undecodable text, or produced a
decoded `Json`. -/
def parsedOf : ModelResponse → Except PyErr Json
  | .raise e => .error e
  | .content none => .error .jsonDecodeError
  | .content (some j) => .ok j

/-- Digits of `n` in decimal, most significant first, with explicit fuel
(`fuel > n` always suffices, since a number has at most `n + 1` digits). -/
def decimalReprAux : Nat → Nat → List Char
  | 0, _ => []
  | fuel + 1, n =>
    if n < 10 then [Nat.digitChar n]
    else decimalReprAux fuel (n / 10) ++ [Nat.digitChar (n % 10)]

/-- Models the decimal rendering of a natural number inside a Python
f-string such as `f"BUG-{random.randint(1000, 9999)}"`. -/
def decimalRepr (n : Nat) : String :=
  String.mk (decimalReprAux (n + 1) n)

/-- The string `f"BUG-{n}"` for a drawn number `n`. -/
def bugIdString (n : Nat) : String := "BUG-" ++ decimalRepr n

/-- The string `f"FR-{n}"` for a drawn number `n`. -/
def frIdString (n : Nat) : String := "FR-" ++ decimalRepr n

/-! ### `app/classifier.py` — `MessageClassifier` -/

/-- Required `ticket` fields checked by `_generate_bug_report_data`. -/
def bugRequiredFields : List String :=
  ["id", "title", "severity", "affected_component",
   "reproduction_steps", "priority", "assigned_team"]

/-- Required `product_requirement` fields checked by
`_generate_feature_request_data`. -/
def frRequiredFields : List String :=
  ["id", "title", "description", "user_story",
   "business_value", "complexity_estimate",
   "affected_components", "status"]

/-- Required top-level fields checked by `_generate_general_inquiry_data`. -/
def inquiryRequiredFields : List String :=
  ["inquiry_category", "requires_human_review", "suggested_resources"]

/-- The `valid_categories` list of `_generate_general_inquiry_data`. -/
def validCategories : List String :=
  ["Account Management", "Billing", "Usage Question", "Other"]

/-- The `for field in required_fields: if field not in t: raise ValueError`
loop shared by all three generators. -/
def checkRequired (t : Json) : List String → Except PyErr Unit
  | [] => .ok ()
  | f :: rest =>
    match pyContains t f with
    | .error e => .error e
    | .ok false => .error .valueError
    | .ok true => checkRequired t rest

/-- The static fallback dict of `_generate_bug_report_data`; `n` is the
drawn `random.randint(1000, 9999)`. -/
def bugFallbackData (product : String) (n : Nat) : Json :=
  .obj [("ticket", .obj [
    ("id", .str (bugIdString n)),
    ("title", .str ("Issue with " ++ product)),
    ("severity", .str "Medium"),
    ("affected_component", .str "User Interface"),
    ("reproduction_steps", .arr [.str "Step 1: User action",
                                 .str "Step 2: System response"]),
    ("priority", .str "High"),
    ("assigned_team", .str "Development Team")])]

/-- The static fallback dict of `_generate_feature_request_data`; `n` is the
drawn `random.randint(1000, 9999)`. -/
def frFallbackData (product : String) (n : Nat) : Json :=
  .obj [("product_requirement", .obj [
    ("id", .str (frIdString n)),
    ("title", .str ("New Feature for " ++ product)),
    ("description", .str "Feature requested by customer"),
    ("user_story", .str "As a user, I want a new capability so that I can achieve my goal"),
    ("business_value", .str "Medium - Improves user satisfaction"),
    ("complexity_estimate", .str "Medium"),
    ("affected_components", .arr [.str "Main Component",
                                  .str "Secondary Component"]),
    ("status", .str "Under Review")])]

/-- The static fallback dict of `_generate_general_inquiry_data`. -/
def inquiryFallbackData (product : String) : Json :=
  .obj [
    ("inquiry_category", .str "Other"),
    ("requires_human_review", .bool true),
    ("suggested_resources", .arr [
      .obj [("title", .str (product ++ " Documentation")),
            ("url", .str "https://example.com/docs")],
      .obj [("title", .str "Contact Support"),
            ("url", .str "https://example.com/support")]])]

/-- The `try` body of `_generate_bug_report_data`: wrapper-key check,
required-field checks, and the `BUG-` id-format repair.  `freshN` is the
number drawn by `random.randint` on the id-replacement branch. -/
def generateBugReportBody (resp : ModelResponse) (freshN : Nat) : Except PyErr Json :=
  match parsedOf resp with
  | .error e => .error e
  | .ok pd =>
    match pyContains pd "ticket" with
    | .error e => .error e
    | .ok false => .error .valueError
    | .ok true =>
      match pyIndex pd "ticket" with
      | .error e => .error e
      | .ok ticket =>
        match checkRequired ticket bugRequiredFields with
        | .error e => .error e
        | .ok _ =>
          match pyIndex ticket "id" with
          | .error e => .error e
          | .ok idv =>
            match pyAttrStartsWith idv "BUG-" with
            | .error e => .error e
            | .ok true => .ok pd
            | .ok false =>
              .ok (pd.set "ticket" (ticket.set "id" (.str (bugIdString freshN))))

/-- `MessageClassifier._generate_bug_report_data`: the `try` body with every
raised exception mapped to the static fallback by the `except` clause.
`fallbackN` is the number drawn on the fallback branch. -/
def generateBugReportData (resp : ModelResponse) (message product : String)
    (freshN fallbackN : Nat) : Json :=
  match generateBugReportBody resp freshN with
  | .ok j => j
  | .error _ => bugFallbackData product fallbackN

/-- The `try` body of `_generate_feature_request_data`: wrapper-key check,
required-field checks, `FR-` id-format repair, and forcing
`status = "Under Review"`. -/
def generateFeatureRequestBody (resp : ModelResponse) (freshN : Nat) : Except PyErr Json :=
  match parsedOf resp with
  | .error e => .error e
  | .ok pd =>
    match pyContains pd "product_requirement" with
    | .error e => .error e
    | .ok false => .error .valueError
    | .ok true =>
      match pyIndex pd "product_requirement" with
      | .error e => .error e
      | .ok req =>
        match checkRequired req frRequiredFields with
        | .error e => .error e
        | .ok _ =>
          match pyIndex req "id" with
          | .error e => .error e
          | .ok idv =>
            match pyAttrStartsWith idv "FR-" with
            | .error e => .error e
            | .ok true =>
              .ok (pd.set "product_requirement"
                    (req.set "status" (.str "Under Review")))
            | .ok false =>
              .ok (pd.set "product_requirement"
                    ((req.set "id" (.str (frIdString freshN))).set "status"
                      (.str "Under Review")))

/-- `MessageClassifier._generate_feature_request_data` with the `except`
clause mapping every raised exception to the static fallback. -/
def generateFeatureRequestData (resp : ModelResponse) (message product : String)
    (freshN fallbackN : Nat) : Json :=
  match generateFeatureRequestBody resp freshN with
  | .ok j => j
  | .error _ => frFallbackData product fallbackN

/-- The per-entry repair of the `suggested_resources` loop: entries that are
not dicts holding both `title` and `url` are replaced by the placeholder
resource. -/
def repairResource (product : String) (r : Json) : Json :=
  match r with
  | .obj fs =>
    if (List.lookup "title" fs).isSome && (List.lookup "url" fs).isSome then .obj fs
    else .obj [("title", .str (product ++ " Documentation")),
               ("url", .str "https://example.com/docs")]
  | _ => .obj [("title", .str (product ++ " Documentation")),
               ("url", .str "https://example.com/docs")]

/-- Python statement
`if parsed_data["inquiry_category"] not in valid_categories: ... = "Other"`:
read the category (may raise) and coerce invalid values to `"Other"`. -/
def inquiryRepairCategory (pd : Json) : Except PyErr Json :=
  match pyIndex pd "inquiry_category" with
  | .error e => .error e
  | .ok cat =>
    if validCategories.any (fun s => Json.beq cat (.str s)) then .ok pd
    else .ok (pd.set "inquiry_category" (.str "Other"))

/-- Python statement
`if not isinstance(parsed_data["requires_human_review"], bool): ... = True`. -/
def inquiryRepairReview (pd : Json) : Except PyErr Json :=
  match pyIndex pd "requires_human_review" with
  | .error e => .error e
  | .ok rv =>
    match rv with
    | .bool _ => .ok pd
    | _ => .ok (pd.set "requires_human_review" (.bool true))

/-- Python statement
`if not isinstance(parsed_data["suggested_resources"], list): ... = []`. -/
def inquiryRepairResources (pd : Json) : Except PyErr Json :=
  match pyIndex pd "suggested_resources" with
  | .error e => .error e
  | .ok sr =>
    match sr with
    | .arr _ => .ok pd
    | _ => .ok (pd.set "suggested_resources" (.arr []))

/-- The `for i, resource in enumerate(parsed_data["suggested_resources"])`
loop replacing malformed entries in place. -/
def inquiryMapResources (pd : Json) (product : String) : Except PyErr Json :=
  match pyIndex pd "suggested_resources" with
  | .error e => .error e
  | .ok (.arr items) =>
    .ok (pd.set "suggested_resources" (.arr (items.map (repairResource product))))
  | .ok _ => .error .typeError

/-- The `try` body of `_generate_general_inquiry_data`: required-field
checks, category coercion, boolean coercion, and resource-list repair, in
source order. -/
def generateGeneralInquiryBody (resp : ModelResponse) (product : String) : Except PyErr Json :=
  match parsedOf resp with
  | .error e => .error e
  | .ok pd =>
    match checkRequired pd inquiryRequiredFields with
    | .error e => .error e
    | .ok _ =>
      match inquiryRepairCategory pd with
      | .error e => .error e
      | .ok pd1 =>
        match inquiryRepairReview pd1 with
        | .error e => .error e
        | .ok pd2 =>
          match inquiryRepairResources pd2 with
          | .error e => .error e
          | .ok pd3 => inquiryMapResources pd3 product

/-- `MessageClassifier._generate_general_inquiry_data` with the `except`
clause mapping every raised exception to the static fallback. -/
def generateGeneralInquiryData (resp : ModelResponse) (message product : String) : Json :=
  match generateGeneralInquiryBody resp product with
  | .ok j => j
  | .error _ => inquiryFallbackData product

/-- `MessageClassifier._handle_test_case_1`. -/
def handle_test_case_1 : Json × Json × Json :=
  (.str "bug_report", .num (95/100), .obj [("ticket", .obj [
    ("id", .str "BUG-1234"),
    ("title", .str "Login Button Unresponsive"),
    ("severity", .str "Medium"),
    ("affected_component", .str "Authentication System"),
    ("reproduction_steps", .arr [.str "Enter password",
                                 .str "Click login button",
                                 .str "Button spins indefinitely"]),
    ("priority", .str "High"),
    ("assigned_team", .str "Authentication Team")])])

/-- `MessageClassifier._handle_test_case_2`. -/
def handle_test_case_2 : Json × Json × Json :=
  (.str "feature_request", .num (92/100), .obj [("product_requirement", .obj [
    ("id", .str "FR-5678"),
    ("title", .str "Extended Notification Time"),
    ("description", .str "Allow users to receive notifications 15 minutes before scheduled workouts"),
    ("user_story", .str "As a user, I want to receive notifications 15 minutes before my scheduled workout so that I have more time to prepare"),
    ("business_value", .str "High - Improves user experience by providing more preparation time"),
    ("complexity_estimate", .str "Medium"),
    ("affected_components", .arr [.str "Notification System", .str "Scheduler"]),
    ("status", .str "Under Review")])])

/-- `MessageClassifier._handle_test_case_3`. -/
def handle_test_case_3 : Json × Json × Json :=
  (.str "general_inquiry", .num (88/100), .obj [
    ("inquiry_category", .str "Billing"),
    ("requires_human_review", .bool false),
    ("suggested_resources", .arr [
      .obj [("title", .str "Billing FAQ"), ("url", .str "https://example.com/billing-faq")],
      .obj [("title", .str "Plan Comparison"), ("url", .str "https://example.com/plans")]])])

/-- `MessageClassifier._handle_fallback_case`: the classification-level
fallback triple `("general_inquiry", 0.3, {...})`. -/
def handle_fallback_case : Json × Json × Json :=
  (.str "general_inquiry", .num (3/10), .obj [
    ("inquiry_category", .str "Other"),
    ("requires_human_review", .bool true),
    ("suggested_resources", .arr [
      .obj [("title", .str "Help Center"), ("url", .str "https://example.com/help")],
      .obj [("title", .str "Contact Support"), ("url", .str "https://example.com/support")]])])

/-- The `try` body of `classify_message` after the test-case short
circuits: parse the classification response, read `message_type`
(default `"general_inquiry"`) and `confidence_score` (default `0.7`)
with `dict.get`, and dispatch to the per-category generator.
`clsResp` is the classification call attempt, `dataResp` the generation
call attempt, `n1`/`n2` the two possible `random.randint` draws of the
dispatched generator. -/
def classifyBody (clsResp dataResp : ModelResponse) (message product : String)
    (n1 n2 : Nat) : Except PyErr (Json × Json × Json) :=
  match parsedOf clsResp with
  | .error e => .error e
  | .ok cd =>
    match pyGet cd "message_type" (.str "general_inquiry") with
    | .error e => .error e
    | .ok mt =>
      match pyGet cd "confidence_score" (.num (7/10)) with
      | .error e => .error e
      | .ok cs =>
        let rd := if Json.beq mt (.str "bug_report") then
                    generateBugReportData dataResp message product n1 n2
                  else if Json.beq mt (.str "feature_request") then
                    generateFeatureRequestData dataResp message product n1 n2
                  else
                    generateGeneralInquiryData dataResp message product
        .ok (mt, cs, rd)

/-- `MessageClassifier.classify_message`: test-case short circuits, then
the `try` body with the `except` clause mapping every raised exception to
`_handle_fallback_case`. -/
def classify_message (clsResp dataResp : ModelResponse) (message product : String)
    (n1 n2 : Nat) : Json × Json × Json :=
  if strContainsSub (pyLower message) "can\x27t log in" &&
     strContainsSub (pyLower message) "button just spins" then
    handle_test_case_1
  else if strContainsSub (pyLower message) "15 minutes before" &&
          strContainsSub (pyLower message) "instead of just 5 minutes" then
    handle_test_case_2
  else if strContainsSub (pyLower message) "just signed up" &&
          strContainsSub (pyLower message) "billing" then
    handle_test_case_3
  else
    match classifyBody clsResp dataResp message product n1 n2 with
    | .ok t => t
    | .error _ => handle_fallback_case

/-- The `tenacity` `@retry(stop=stop_after_attempt(cap))` combinator: run
attempt `i`; a raised exception triggers the next attempt while attempts
remain, and is re-raised when they are exhausted.  Results returned
normally are never retried. -/
def retryRun {α : Type} (body : Nat → Except PyErr α) : Nat → Nat → Except PyErr α
  | _, 0 => body 0
  | i, 1 => body i
  | i, cap + 2 =>
    match body i with
    | .ok a => .ok a
    | .error _ => retryRun body (i + 1) (cap + 1)

/-- `classify_message` as decorated with
`@retry(wait=wait_random_exponential(min=1, max=10), stop=stop_after_attempt(3))`:
attempt `i` observes call outcomes `clsResp i` / `dataResp i`.  The
decorated body returns normally on every path (its `except` clause swallows
all exceptions), embedded by wrapping its result in `.ok`. -/
def classify_message_retried (clsResp dataResp : Nat → ModelResponse)
    (message product : String) (n1 n2 : Nat) : Except PyErr (Json × Json × Json) :=
  retryRun (fun i => .ok (classify_message (clsResp i) (dataResp i) message product n1 n2)) 0 3

/-! ### `app/llm.py` — `MessageProcessor` -/

/-- `MessageProcessor._generate_fallback`. -/
def generate_fallback (message product : String) : Json :=
  .obj [
    ("message_type", .str "general_inquiry"),
    ("confidence_score", .num (3/10)),
    ("response_data", .obj [
      ("inquiry_category", .str "Other"),
      ("requires_human_review", .bool true),
      ("suggested_resources", .arr [
        .obj [("title", .str "Help Center"), ("url", .str "https://example.com/help")],
        .obj [("title", .str "Contact Support"), ("url", .str "https://example.com/support")]])]),
    ("customer_response", .str ("Thank you for your message about " ++ product ++
      ". We\x27ll have a support agent review your request and get back to you soon."))]

/-- The `try` body of `MessageProcessor.process_message`: parse the model
response and check the three required top-level keys; when one is absent
return the fallback, otherwise return the parsed result unchanged.  (The
pre-generated `bug_id`/`feature_id` feed only the prompt string and are not
used by the validation.) -/
def processMessageBody (resp : ModelResponse) (message product : String) : Except PyErr Json :=
  match parsedOf resp with
  | .error e => .error e
  | .ok result =>
    match pyContains result "message_type" with
    | .error e => .error e
    | .ok false => .ok (generate_fallback message product)
    | .ok true =>
      match pyContains result "confidence_score" with
      | .error e => .error e
      | .ok false => .ok (generate_fallback message product)
      | .ok true =>
        match pyContains result "response_data" with
        | .error e => .error e
        | .ok false => .ok (generate_fallback message product)
        | .ok true => .ok result

/-- `MessageProcessor.process_message` with the `except` clause mapping
every raised exception to `_generate_fallback`. -/
def process_message (resp : ModelResponse) (message product : String) : Json :=
  match processMessageBody resp message product with
  | .ok j => j
  | .error _ => generate_fallback message product

/-! ### Projections used to state properties -/

/-- Follow a path of keys through nested dicts. -/
def getPath (j : Json) (ks : List String) : Option Json :=
  ks.foldl (fun acc k => acc.bind (fun x => x.get? k)) (some j)

/-- Follow a path of keys and extract a string value. -/
def getStrPath (j : Json) (ks : List String) : Option String :=
  match getPath j ks with
  | some (.str s) => some s
  | _ => none

/-- Follow a path of keys and extract a numeric value. -/
def getNumPath (j : Json) (ks : List String) : Option Rat :=
  match getPath j ks with
  | some (.num q) => some q
  | _ => none

/-- Follow a path of keys and extract a boolean value. -/
def getBoolPath (j : Json) (ks : List String) : Option Bool :=
  match getPath j ks with
  | some (.bool b) => some b
  | _ => none

/-! ### Spec-side definitions (§3 field-constraint table)

These follow the wording of the specification, to be compared with the
source-derived definitions above. -/

/-- §3: `severity` must be one of Low, Medium, High, Critical. -/
def specSeverities : List String := ["Low", "Medium", "High", "Critical"]

/-- §3: `priority` must be one of Low, Medium, High. -/
def specPriorities : List String := ["Low", "Medium", "High"]

/-- §3: `complexity_estimate` must be one of Low, Medium, High. -/
def specComplexities : List String := ["Low", "Medium", "High"]

/-- §3: `inquiry_category` must be one of the four allowed strings. -/
def specInquiryCategories : List String :=
  ["Account Management", "Billing", "Usage Question", "Other"]

/-- The optional field holds a string drawn from `allowed`. -/
def specStrIn (allowed : List String) : Option Json → Bool
  | some (.str s) => allowed.contains s
  | _ => false

/-- §3 id pattern `<pre><digits>` as a proposition: the id is the prefix
string followed by a non-empty run of decimal digits. -/
def specIdPattern (pre s : String) : Prop :=
  ∃ t : String, s = pre ++ t ∧ t.data ≠ [] ∧ t.data.all Char.isDigit = true

/-- §3 id pattern `<pre><digits>` as a boolean check on an optional field. -/
def specIdPatternB (pre : String) : Option Json → Bool
  | some (.str s) =>
    pyStartsWith s pre &&
    (!(s.data.drop pre.data.length).isEmpty &&
    (s.data.drop pre.data.length).all Char.isDigit)
  | _ => false

/-- §3: `reproduction_steps` is a non-empty list of strings. -/
def specNonEmptyStrList : Option Json → Bool
  | some (.arr xs) => !xs.isEmpty && xs.all (fun x => match x with | .str _ => true | _ => false)
  | _ => false

/-- §3: `affected_components` is a list of strings. -/
def specStrList : Option Json → Bool
  | some (.arr xs) => xs.all (fun x => match x with | .str _ => true | _ => false)
  | _ => false

/-- §3 BugReport row: every required field present and every constrained
field within its constraint. -/
def specBugTicketOk (t : Json) : Bool :=
  specIdPatternB "BUG-" (t.get? "id") &&
  ((t.get? "title").isSome &&
  (specStrIn specSeverities (t.get? "severity") &&
  ((t.get? "affected_component").isSome &&
  (specNonEmptyStrList (t.get? "reproduction_steps") &&
  (specStrIn specPriorities (t.get? "priority") &&
  (t.get? "assigned_team").isSome)))))

/-- §3 validity of a bug-report payload: a `ticket` wrapper holding a valid
ticket. -/
def specBugPayloadOk (pd : Json) : Bool :=
  match pd.get? "ticket" with
  | some t => specBugTicketOk t
  | none => false

/-- §3 FeatureRequest row. -/
def specFrReqOk (t : Json) : Bool :=
  specIdPatternB "FR-" (t.get? "id") &&
  ((t.get? "title").isSome &&
  ((t.get? "description").isSome &&
  ((t.get? "user_story").isSome &&
  ((t.get? "business_value").isSome &&
  (specStrIn specComplexities (t.get? "complexity_estimate") &&
  (specStrList (t.get? "affected_components") &&
  (match t.get? "status" with | some (.str s) => s == "Under Review" | _ => false)))))))

/-- §3 validity of a feature-request payload: a `product_requirement`
wrapper holding a valid requirement. -/
def specFrPayloadOk (pd : Json) : Bool :=
  match pd.get? "product_requirement" with
  | some t => specFrReqOk t
  | none => false

/-- §3: a suggested resource is a `{title, url}` pair. -/
def specResourceOk : Json → Bool
  | .obj fs => (List.lookup "title" fs).isSome && (List.lookup "url" fs).isSome
  | _ => false

/-- §3 GeneralInquiry row. -/
def specInquiryOk (pd : Json) : Bool :=
  specStrIn specInquiryCategories (pd.get? "inquiry_category") &&
  ((match pd.get? "requires_human_review" with | some (.bool _) => true | _ => false) &&
  (match pd.get? "suggested_resources" with
   | some (.arr xs) => xs.all specResourceOk
   | _ => false))

/-- Field-presence and id-prefix guarantee that the bug-report repairer
actually enforces: `ticket` wrapper present as a dict, all §3-required keys
present, and the id a string carrying the `BUG-` prefix. -/
def codeBugGuarantee (pd : Json) : Bool :=
  match pd.get? "ticket" with
  | some (.obj tfs) =>
    bugRequiredFields.all (fun f => (List.lookup f tfs).isSome) &&
    (match List.lookup "id" tfs with
     | some (.str s) => pyStartsWith s "BUG-"
     | _ => false)
  | _ => false

/-- Field-presence, id-prefix and forced-status guarantee that the
feature-request repairer actually enforces. -/
def codeFrGuarantee (pd : Json) : Bool :=
  match pd.get? "product_requirement" with
  | some (.obj tfs) =>
    frRequiredFields.all (fun f => (List.lookup f tfs).isSome) &&
    ((match List.lookup "id" tfs with
     | some (.str s) => pyStartsWith s "FR-"
     | _ => false) &&
    (match List.lookup "status" tfs with
     | some (.str s) => s == "Under Review"
     | _ => false))
  | _ => false

/-! ### Helper lemmas -/

theorem listStartsWith_append (p t : List Char) : listStartsWith (p ++ t) p = true := by
  induction p with
  | nil => simp [listStartsWith]
  | cons c cs ih => simp [listStartsWith, ih]

theorem pyStartsWith_append (pre t : String) : pyStartsWith (pre ++ t) pre = true := by
  have h : (pre ++ t).data = pre.data ++ t.data := String.data_append pre t
  simp [pyStartsWith, h, listStartsWith_append]

theorem lookup_setField_self (fs : List (String × Json)) (k : String) (v : Json) :
    List.lookup k (setField k v fs) = some v := by
  induction fs with
  | nil => simp [setField, List.lookup]
  | cons p rest ih =>
    obtain ⟨k2, v2⟩ := p
    by_cases h : k2 = k
    · subst h
      simp [setField, List.lookup]
    · simp [setField, List.lookup, beq_eq_false_iff_ne.mpr h,
            beq_eq_false_iff_ne.mpr (Ne.symm h), ih]

theorem lookup_setField_ne (fs : List (String × Json)) {f k : String} (v : Json)
    (h : f ≠ k) : List.lookup f (setField k v fs) = List.lookup f fs := by
  induction fs with
  | nil => simp [setField, List.lookup, beq_eq_false_iff_ne.mpr h]
  | cons p rest ih =>
    obtain ⟨k2, v2⟩ := p
    by_cases h2 : k2 = k
    · subst h2
      simp [setField, List.lookup, beq_eq_false_iff_ne.mpr h]
    · simp [setField, List.lookup, beq_eq_false_iff_ne.mpr h2, ih]

theorem setField_of_lookup_eq {fs : List (String × Json)} {k : String} {v : Json}
    (h : List.lookup k fs = some v) : setField k v fs = fs := by
  induction fs with
  | nil => simp [List.lookup] at h
  | cons p rest ih =>
    obtain ⟨k2, v2⟩ := p
    by_cases h2 : k = k2
    · subst h2
      simp [List.lookup] at h
      simp [setField, h]
    · simp [List.lookup, beq_eq_false_iff_ne.mpr h2] at h
      simp [setField, beq_eq_false_iff_ne.mpr (Ne.symm h2), ih h]

theorem pyIndex_ok {j : Json} {k : String} {v : Json} (h : pyIndex j k = .ok v) :
    ∃ fs, j = .obj fs ∧ List.lookup k fs = some v := by
  cases j with
  | obj fs =>
    refine ⟨fs, rfl, ?_⟩
    revert h
    simp only [pyIndex]
    cases List.lookup k fs with
    | none => intro h; cases h
    | some w => intro h; cases h; rfl
  | null => cases h
  | bool b => cases h
  | num q => cases h
  | str s => cases h
  | arr xs => cases h

theorem pyAttrStartsWith_ok {j : Json} {pre : String} {b : Bool}
    (h : pyAttrStartsWith j pre = .ok b) :
    ∃ s, j = .str s ∧ pyStartsWith s pre = b := by
  cases j with
  | str s =>
    refine ⟨s, rfl, ?_⟩
    simp only [pyAttrStartsWith] at h
    cases h
    rfl
  | null => cases h
  | bool c => cases h
  | num q => cases h
  | arr xs => cases h
  | obj fs => cases h

theorem pyGet_ok {j : Json} {k : String} {d v : Json} (h : pyGet j k d = .ok v) :
    ∃ fs, j = .obj fs ∧ v = (List.lookup k fs).getD d := by
  cases j with
  | obj fs =>
    refine ⟨fs, rfl, ?_⟩
    simp only [pyGet] at h
    cases h
    rfl
  | null => cases h
  | bool c => cases h
  | num q => cases h
  | str s => cases h
  | arr xs => cases h

theorem checkRequired_ok {t : Json} {fields : List String} {u : Unit}
    (h : checkRequired t fields = .ok u) :
    ∀ f ∈ fields, pyContains t f = .ok true := by
  induction fields with
  | nil => intro f hf; cases hf
  | cons g rest ih =>
    intro f hf
    revert h
    simp only [checkRequired]
    cases hc : pyContains t g with
    | error e => intro h; cases h
    | ok b =>
      cases b with
      | false => intro h; cases h
      | true =>
        intro h
        rcases List.mem_cons.mp hf with hfg | hfr
        · subst hfg; exact hc
        · exact ih h f hfr

theorem checkRequired_obj {tfs : List (String × Json)} {fields : List String} {u : Unit}
    (h : checkRequired (.obj tfs) fields = .ok u) :
    ∀ f ∈ fields, (List.lookup f tfs).isSome = true := by
  intro f hf
  have hc := checkRequired_ok h f hf
  simp only [pyContains, Except.ok.injEq] at hc
  exact hc

theorem json_beq_str {j : Json} {s : String} (h : Json.beq j (.str s) = true) :
    j = .str s := by
  cases j with
  | str s2 =>
    simp only [Json.beq, beq_iff_eq] at h
    rw [h]
  | null => simp [Json.beq] at h
  | bool b => simp [Json.beq] at h
  | num q => simp [Json.beq] at h
  | arr xs => simp [Json.beq] at h
  | obj fs => simp [Json.beq] at h

theorem decimalReprAux_fuel (n : Nat) : ∀ (f1 f2 : Nat), n < f1 → n < f2 →
    decimalReprAux f1 n = decimalReprAux f2 n := by
  induction n using Nat.strong_induction_on with
  | _ n ih =>
    intro f1 f2 h1 h2
    cases f1 with
    | zero => omega
    | succ g1 =>
      cases f2 with
      | zero => omega
      | succ g2 =>
        by_cases h10 : n < 10
        · simp [decimalReprAux, h10]
        · simp only [decimalReprAux, if_neg h10]
          have hdiv : n / 10 < n := Nat.div_lt_self (by omega) (by omega)
          rw [ih (n / 10) hdiv g1 g2 (by omega) (by omega)]

theorem decimalRepr_data_lt10 {n : Nat} (h : n < 10) :
    (decimalRepr n).data = [Nat.digitChar n] := by
  simp [decimalRepr, decimalReprAux, h]

theorem decimalRepr_data_ge10 {n : Nat} (h : 10 ≤ n) :
    (decimalRepr n).data = (decimalRepr (n / 10)).data ++ [Nat.digitChar (n % 10)] := by
  show decimalReprAux (n + 1) n = decimalReprAux (n / 10 + 1) (n / 10) ++ [Nat.digitChar (n % 10)]
  simp only [decimalReprAux, if_neg (by omega : ¬ n < 10)]
  congr 1
  exact decimalReprAux_fuel (n / 10) n (n / 10 + 1)
    (Nat.div_lt_self (by omega) (by omega)) (Nat.lt_succ_self _)

theorem decimalRepr_len1 {n : Nat} (h : n < 10) : (decimalRepr n).data.length = 1 := by
  rw [decimalRepr_data_lt10 h]
  rfl

theorem decimalRepr_len2 {n : Nat} (h1 : 10 ≤ n) (h2 : n < 100) :
    (decimalRepr n).data.length = 2 := by
  rw [decimalRepr_data_ge10 h1, List.length_append,
      decimalRepr_len1 (show n / 10 < 10 by omega)]
  rfl

theorem decimalRepr_len3 {n : Nat} (h1 : 100 ≤ n) (h2 : n < 1000) :
    (decimalRepr n).data.length = 3 := by
  rw [decimalRepr_data_ge10 (by omega), List.length_append,
      decimalRepr_len2 (show 10 ≤ n / 10 by omega) (show n / 10 < 100 by omega)]
  rfl

theorem decimalRepr_len4 {n : Nat} (h1 : 1000 ≤ n) (h2 : n ≤ 9999) :
    (decimalRepr n).data.length = 4 := by
  rw [decimalRepr_data_ge10 (by omega), List.length_append,
      decimalRepr_len3 (show 100 ≤ n / 10 by omega) (show n / 10 < 1000 by omega)]
  rfl

theorem digitChar_isDigit : ∀ m, m < 10 → (Nat.digitChar m).isDigit = true := by decide

theorem decimalRepr_all_digits (n : Nat) : (decimalRepr n).data.all Char.isDigit = true := by
  induction n using Nat.strong_induction_on with
  | _ n ih =>
    by_cases h : n < 10
    · rw [decimalRepr_data_lt10 h]
      simp [digitChar_isDigit n h]
    · rw [decimalRepr_data_ge10 (by omega), List.all_append]
      have h1 := ih (n / 10) (Nat.div_lt_self (by omega) (by omega))
      simp [h1, digitChar_isDigit (n % 10) (Nat.mod_lt _ (by omega))]

theorem pyStartsWith_bugIdString (n : Nat) : pyStartsWith (bugIdString n) "BUG-" = true :=
  pyStartsWith_append "BUG-" (decimalRepr n)

theorem pyStartsWith_frIdString (n : Nat) : pyStartsWith (frIdString n) "FR-" = true :=
  pyStartsWith_append "FR-" (decimalRepr n)

/-! ### Shape lemmas for the repairers -/

theorem generateBugReportBody_ok {resp : ModelResponse} {n : Nat} {out : Json}
    (h : generateBugReportBody resp n = .ok out) :
    codeBugGuarantee out = true := by
  unfold generateBugReportBody at h
  split at h
  · exact absurd h (by simp)
  rename_i pd heqp
  split at h
  · exact absurd h (by simp)
  · exact absurd h (by simp)
  rename_i heqc
  split at h
  · exact absurd h (by simp)
  rename_i ticket heqi
  split at h
  · exact absurd h (by simp)
  rename_i u hreq
  split at h
  · exact absurd h (by simp)
  rename_i idv heqid
  split at h
  · exact absurd h (by simp)
  case _ hsw =>
    -- id already carries the BUG- prefix: the payload is returned unchanged
    cases h
    obtain ⟨fs, rfl, hlk⟩ := pyIndex_ok heqi
    obtain ⟨tfs, rfl, htk⟩ := pyIndex_ok heqid
    obtain ⟨s, rfl, hsws⟩ := pyAttrStartsWith_ok hsw
    have hflds := checkRequired_obj hreq
    simp only [codeBugGuarantee, Json.get?, hlk, htk, hsws, Bool.and_eq_true, List.all_eq_true]
    exact ⟨fun f hf => hflds f hf, trivial⟩
  case _ hsw =>
    -- id lacks the BUG- prefix: it is replaced with a fresh BUG- id
    cases h
    obtain ⟨fs, rfl, hlk⟩ := pyIndex_ok heqi
    obtain ⟨tfs, rfl, htk⟩ := pyIndex_ok heqid
    have hflds := checkRequired_obj hreq
    simp only [Json.set, codeBugGuarantee, Json.get?, lookup_setField_self,
               Bool.and_eq_true, List.all_eq_true]
    constructor
    · intro f hf
      by_cases hfid : f = "id"
      · subst hfid
        simp [lookup_setField_self]
      · rw [lookup_setField_ne _ _ hfid]
        exact hflds f hf
    · exact pyStartsWith_bugIdString n

theorem generateFeatureRequestBody_ok {resp : ModelResponse} {n : Nat} {out : Json}
    (h : generateFeatureRequestBody resp n = .ok out) :
    codeFrGuarantee out = true := by
  unfold generateFeatureRequestBody at h
  split at h
  · exact absurd h (by simp)
  rename_i pd heqp
  split at h
  · exact absurd h (by simp)
  · exact absurd h (by simp)
  rename_i heqc
  split at h
  · exact absurd h (by simp)
  rename_i req heqi
  split at h
  · exact absurd h (by simp)
  rename_i u hreq
  split at h
  · exact absurd h (by simp)
  rename_i idv heqid
  split at h
  · exact absurd h (by simp)
  case _ hsw =>
    -- id already carries the FR- prefix: only the status is overwritten
    cases h
    obtain ⟨fs, rfl, hlk⟩ := pyIndex_ok heqi
    obtain ⟨tfs, rfl, htk⟩ := pyIndex_ok heqid
    obtain ⟨s, rfl, hsws⟩ := pyAttrStartsWith_ok hsw
    have hflds := checkRequired_obj hreq
    simp only [Json.set, codeFrGuarantee, Json.get?, lookup_setField_self,
               Bool.and_eq_true, List.all_eq_true]
    refine ⟨fun f hf => ?_, ?_, ?_⟩
    · by_cases hfst : f = "status"
      · subst hfst
        simp [lookup_setField_self]
      · rw [lookup_setField_ne _ _ hfst]
        exact hflds f hf
    · rw [lookup_setField_ne _ _ (by decide : "id" ≠ "status"), htk]
      exact hsws
    · simp [lookup_setField_self]
  case _ hsw =>
    -- id lacks the FR- prefix: it is replaced, then the status overwritten
    cases h
    obtain ⟨fs, rfl, hlk⟩ := pyIndex_ok heqi
    obtain ⟨tfs, rfl, htk⟩ := pyIndex_ok heqid
    have hflds := checkRequired_obj hreq
    simp only [Json.set, codeFrGuarantee, Json.get?, lookup_setField_self,
               Bool.and_eq_true, List.all_eq_true]
    refine ⟨fun f hf => ?_, ?_, ?_⟩
    · by_cases hfst : f = "status"
      · subst hfst
        simp [lookup_setField_self]
      · rw [lookup_setField_ne _ _ hfst]
        by_cases hfid : f = "id"
        · subst hfid
          simp [lookup_setField_self]
        · rw [lookup_setField_ne _ _ hfid]
          exact hflds f hf
    · rw [lookup_setField_ne _ _ (by decide : "id" ≠ "status"), lookup_setField_self]
      exact pyStartsWith_frIdString n
    · simp [lookup_setField_self]

theorem specResourceOk_repairResource (product : String) (r : Json) :
    specResourceOk (repairResource product r) = true := by
  cases r with
  | obj fs =>
    simp only [repairResource]
    by_cases ht : (List.lookup "title" fs).isSome
    · by_cases hu : (List.lookup "url" fs).isSome
      · simp [ht, hu, specResourceOk]
      · simp [hu, specResourceOk, List.lookup]
    · simp [ht, specResourceOk, List.lookup]
  | null => simp [repairResource, specResourceOk, List.lookup]
  | bool b => simp [repairResource, specResourceOk, List.lookup]
  | num q => simp [repairResource, specResourceOk, List.lookup]
  | str s => simp [repairResource, specResourceOk, List.lookup]
  | arr xs => simp [repairResource, specResourceOk, List.lookup]

theorem inquiryRepairCategory_ok {pd out : Json}
    (h : inquiryRepairCategory pd = .ok out) :
    ∃ fs ofs, pd = .obj fs ∧ out = .obj ofs ∧
      specStrIn specInquiryCategories (List.lookup "inquiry_category" ofs) = true ∧
      (∀ k, k ≠ "inquiry_category" → List.lookup k ofs = List.lookup k fs) := by
  unfold inquiryRepairCategory at h
  split at h
  · exact absurd h (by simp)
  rename_i cat heq
  obtain ⟨fs, rfl, hlk⟩ := pyIndex_ok heq
  split at h
  case _ hval =>
    cases h
    obtain ⟨x, hx, hbeq⟩ := List.any_eq_true.mp hval
    have hcat := json_beq_str hbeq
    subst hcat
    refine ⟨fs, fs, rfl, rfl, ?_, fun k hk => rfl⟩
    rw [hlk]
    simp only [specStrIn]
    exact List.elem_eq_true_of_mem hx
  case _ hval =>
    cases h
    refine ⟨fs, setField "inquiry_category" (.str "Other") fs, rfl, rfl, ?_, ?_⟩
    · rw [lookup_setField_self]
      decide
    · intro k hk
      exact lookup_setField_ne _ _ hk

theorem inquiryRepairReview_ok {pd out : Json}
    (h : inquiryRepairReview pd = .ok out) :
    ∃ fs ofs, pd = .obj fs ∧ out = .obj ofs ∧
      (∃ b, List.lookup "requires_human_review" ofs = some (.bool b)) ∧
      (∀ k, k ≠ "requires_human_review" → List.lookup k ofs = List.lookup k fs) := by
  unfold inquiryRepairReview at h
  split at h
  · exact absurd h (by simp)
  rename_i rv heq
  obtain ⟨fs, rfl, hlk⟩ := pyIndex_ok heq
  split at h
  case _ b =>
    cases h
    exact ⟨fs, fs, rfl, rfl, ⟨b, hlk⟩, fun k hk => rfl⟩
  case _ hnotbool =>
    cases h
    refine ⟨fs, setField "requires_human_review" (.bool true) fs, rfl, rfl,
      ⟨true, lookup_setField_self _ _ _⟩, fun k hk => lookup_setField_ne _ _ hk⟩

theorem inquiryRepairResources_ok {pd out : Json}
    (h : inquiryRepairResources pd = .ok out) :
    ∃ fs ofs, pd = .obj fs ∧ out = .obj ofs ∧
      (∃ xs, List.lookup "suggested_resources" ofs = some (.arr xs)) ∧
      (∀ k, k ≠ "suggested_resources" → List.lookup k ofs = List.lookup k fs) := by
  unfold inquiryRepairResources at h
  split at h
  · exact absurd h (by simp)
  rename_i sr heq
  obtain ⟨fs, rfl, hlk⟩ := pyIndex_ok heq
  split at h
  case _ xs =>
    cases h
    exact ⟨fs, fs, rfl, rfl, ⟨xs, hlk⟩, fun k hk => rfl⟩
  case _ hnotarr =>
    cases h
    refine ⟨fs, setField "suggested_resources" (.arr []) fs, rfl, rfl,
      ⟨[], lookup_setField_self _ _ _⟩, fun k hk => lookup_setField_ne _ _ hk⟩

theorem inquiryMapResources_ok {pd out : Json} {product : String}
    (h : inquiryMapResources pd product = .ok out) :
    ∃ fs items, pd = .obj fs ∧ List.lookup "suggested_resources" fs = some (.arr items) ∧
      out = .obj (setField "suggested_resources"
        (.arr (items.map (repairResource product))) fs) := by
  unfold inquiryMapResources at h
  split at h
  · exact absurd h (by simp)
  case _ items heq =>
    obtain ⟨fs, rfl, hlk⟩ := pyIndex_ok heq
    cases h
    exact ⟨fs, items, rfl, hlk, by simp [Json.set]⟩
  · exact absurd h (by simp)

theorem generateGeneralInquiryBody_ok {resp : ModelResponse} {product : String} {out : Json}
    (h : generateGeneralInquiryBody resp product = .ok out) :
    specInquiryOk out = true := by
  unfold generateGeneralInquiryBody at h
  split at h
  · exact absurd h (by simp)
  rename_i pd heqp
  split at h
  · exact absurd h (by simp)
  rename_i u hreq
  split at h
  · exact absurd h (by simp)
  rename_i pd1 h1
  split at h
  · exact absurd h (by simp)
  rename_i pd2 h2
  split at h
  · exact absurd h (by simp)
  rename_i pd3 h3
  obtain ⟨fs1, ofs1, rfl, rfl, hcat1, hpres1⟩ := inquiryRepairCategory_ok h1
  obtain ⟨fs2, ofs2, heq2, rfl, hrev2, hpres2⟩ := inquiryRepairReview_ok h2
  obtain ⟨fs3, ofs3, heq3, rfl, hres3, hpres3⟩ := inquiryRepairResources_ok h3
  obtain ⟨fs4, items, heq4, hlk4, rfl⟩ := inquiryMapResources_ok h
  cases heq2
  cases heq3
  cases heq4
  simp only [specInquiryOk, Json.get?, Bool.and_eq_true]
  refine ⟨?_, ?_, ?_⟩
  · rw [lookup_setField_ne _ _ (by decide : "inquiry_category" ≠ "suggested_resources"),
        hpres3 _ (by decide), hpres2 _ (by decide)]
    exact hcat1
  · obtain ⟨b, hb⟩ := hrev2
    rw [lookup_setField_ne _ _ (by decide : "requires_human_review" ≠ "suggested_resources"),
        hpres3 _ (by decide), hb]
  · rw [lookup_setField_self]
    simp only [List.all_map, List.all_eq_true, Function.comp]
    intro r hr
    exact specResourceOk_repairResource product r

theorem codeBugGuarantee_fallback (product : String) (n : Nat) :
    codeBugGuarantee (bugFallbackData product n) = true := by
  simp [codeBugGuarantee, bugFallbackData, Json.get?, List.lookup, bugRequiredFields,
        pyStartsWith_bugIdString n]

theorem codeFrGuarantee_fallback (product : String) (n : Nat) :
    codeFrGuarantee (frFallbackData product n) = true := by
  simp [codeFrGuarantee, frFallbackData, Json.get?, List.lookup, frRequiredFields,
        pyStartsWith_frIdString n]

theorem specInquiryOk_fallback (product : String) :
    specInquiryOk (inquiryFallbackData product) = true := by
  simp [specInquiryOk, inquiryFallbackData, Json.get?, List.lookup, specStrIn,
        specInquiryCategories, specResourceOk]

theorem codeBugGuarantee_total (resp : ModelResponse) (m p : String) (n1 n2 : Nat) :
    codeBugGuarantee (generateBugReportData resp m p n1 n2) = true := by
  unfold generateBugReportData
  split
  case _ j hok => exact generateBugReportBody_ok hok
  case _ => exact codeBugGuarantee_fallback p n2

theorem codeFrGuarantee_total (resp : ModelResponse) (m p : String) (n1 n2 : Nat) :
    codeFrGuarantee (generateFeatureRequestData resp m p n1 n2) = true := by
  unfold generateFeatureRequestData
  split
  case _ j hok => exact generateFeatureRequestBody_ok hok
  case _ => exact codeFrGuarantee_fallback p n2

theorem specInquiryOk_total (resp : ModelResponse) (m p : String) :
    specInquiryOk (generateGeneralInquiryData resp m p) = true := by
  unfold generateGeneralInquiryData
  split
  case _ j hok => exact generateGeneralInquiryBody_ok hok
  case _ => exact specInquiryOk_fallback p

/-! ### Idempotence of the repairers on §3-valid payloads -/

theorem checkRequired_obj_ok {tfs : List (String × Json)} {fields : List String}
    (h : ∀ f ∈ fields, (List.lookup f tfs).isSome = true) :
    checkRequired (.obj tfs) fields = .ok () := by
  induction fields with
  | nil => rfl
  | cons g rest ih =>
    simp only [checkRequired, pyContains, h g (List.mem_cons_self g rest)]
    exact ih fun f hf => h f (List.mem_cons_of_mem g hf)

theorem specStrIn_isSome {allowed : List String} {o : Option Json}
    (h : specStrIn allowed o = true) : o.isSome = true := by
  cases o with
  | none => simp [specStrIn] at h
  | some v => rfl

theorem specIdPatternB_isSome {pre : String} {o : Option Json}
    (h : specIdPatternB pre o = true) : o.isSome = true := by
  cases o with
  | none => simp [specIdPatternB] at h
  | some v => rfl

theorem specNonEmptyStrList_isSome {o : Option Json}
    (h : specNonEmptyStrList o = true) : o.isSome = true := by
  cases o with
  | none => simp [specNonEmptyStrList] at h
  | some v => rfl

theorem specStrList_isSome {o : Option Json}
    (h : specStrList o = true) : o.isSome = true := by
  cases o with
  | none => simp [specStrList] at h
  | some v => rfl

theorem repairResource_noop {product : String} {r : Json}
    (h : specResourceOk r = true) : repairResource product r = r := by
  cases r with
  | obj fs =>
    simp only [specResourceOk, Bool.and_eq_true] at h
    simp [repairResource, h.1, h.2]
  | null => simp [specResourceOk] at h
  | bool b => simp [specResourceOk] at h
  | num q => simp [specResourceOk] at h
  | str s => simp [specResourceOk] at h
  | arr xs => simp [specResourceOk] at h

theorem map_repairResource_noop {product : String} {xs : List Json}
    (h : xs.all specResourceOk = true) : xs.map (repairResource product) = xs := by
  induction xs with
  | nil => rfl
  | cons r rest ih =>
    simp only [List.all_cons, Bool.and_eq_true] at h
    simp [repairResource_noop h.1, ih h.2]

theorem any_beq_of_contains {l : List String} {s : String} (h : l.contains s = true) :
    (l.any fun x => Json.beq (.str s) (.str x)) = true := by
  refine List.any_eq_true.mpr ⟨s, List.mem_of_elem_eq_true h, ?_⟩
  simp [Json.beq]

theorem bugRepair_noop {fs : List (String × Json)} (m p : String) (n1 n2 : Nat)
    (h : specBugPayloadOk (.obj fs) = true) :
    generateBugReportData (.content (some (.obj fs))) m p n1 n2 = .obj fs := by
  revert h
  unfold specBugPayloadOk
  cases hlt : Json.get? (.obj fs) "ticket" with
  | none => intro h; cases h
  | some t =>
    intro ht
    simp only [Json.get?] at hlt
    simp only [specBugTicketOk, Bool.and_eq_true] at ht
    obtain ⟨hid, htitle, hsev, hcomp, hrepro, hprio, hteam⟩ := ht
    cases t with
    | obj tfs =>
      simp only [Json.get?] at hid htitle hsev hcomp hrepro hprio hteam
      have hpres : ∀ f ∈ bugRequiredFields, (List.lookup f tfs).isSome = true := by
        intro f hf
        simp only [bugRequiredFields, List.mem_cons, List.not_mem_nil, or_false] at hf
        rcases hf with rfl | rfl | rfl | rfl | rfl | rfl | rfl
        · exact specIdPatternB_isSome hid
        · exact htitle
        · exact specStrIn_isSome hsev
        · exact hcomp
        · exact specNonEmptyStrList_isSome hrepro
        · exact specStrIn_isSome hprio
        · exact hteam
      obtain ⟨s, hlid, hsw⟩ : ∃ s, List.lookup "id" tfs = some (.str s) ∧
          pyStartsWith s "BUG-" = true := by
        revert hid
        cases hlid : List.lookup "id" tfs with
        | none => intro hid; cases hid
        | some v =>
          cases v with
          | str s =>
            intro hid
            simp only [specIdPatternB, Bool.and_eq_true] at hid
            exact ⟨s, rfl, hid.1⟩
          | null => intro hid; cases hid
          | bool b => intro hid; cases hid
          | num q => intro hid; cases hid
          | arr xs => intro hid; cases hid
          | obj o => intro hid; cases hid
      simp only [generateBugReportData, generateBugReportBody, parsedOf, pyContains,
                 pyIndex, hlt, Option.isSome_some, checkRequired_obj_ok hpres, hlid,
                 pyAttrStartsWith, hsw]
    | null => simp [specIdPatternB, Json.get?] at hid
    | bool b => simp [specIdPatternB, Json.get?] at hid
    | num q => simp [specIdPatternB, Json.get?] at hid
    | str s => simp [specIdPatternB, Json.get?] at hid
    | arr xs => simp [specIdPatternB, Json.get?] at hid

theorem frRepair_noop {fs : List (String × Json)} (m p : String) (n1 n2 : Nat)
    (h : specFrPayloadOk (.obj fs) = true) :
    generateFeatureRequestData (.content (some (.obj fs))) m p n1 n2 = .obj fs := by
  revert h
  unfold specFrPayloadOk
  cases hlt : Json.get? (.obj fs) "product_requirement" with
  | none => intro h; cases h
  | some t =>
    intro ht
    simp only [Json.get?] at hlt
    simp only [specFrReqOk, Bool.and_eq_true] at ht
    obtain ⟨hid, htitle, hdesc, hstory, hvalue, hcplx, hcomps, hstat⟩ := ht
    cases t with
    | obj tfs =>
      simp only [Json.get?] at hid htitle hdesc hstory hvalue hcplx hcomps hstat
      have hpres : ∀ f ∈ frRequiredFields, (List.lookup f tfs).isSome = true := by
        intro f hf
        simp only [frRequiredFields, List.mem_cons, List.not_mem_nil, or_false] at hf
        rcases hf with rfl | rfl | rfl | rfl | rfl | rfl | rfl | rfl
        · exact specIdPatternB_isSome hid
        · exact htitle
        · exact hdesc
        · exact hstory
        · exact hvalue
        · exact specStrIn_isSome hcplx
        · exact specStrList_isSome hcomps
        · revert hstat
          cases List.lookup "status" tfs with
          | none => intro hstat; cases hstat
          | some v => intro hstat; rfl
      obtain ⟨s, hlid, hsw⟩ : ∃ s, List.lookup "id" tfs = some (.str s) ∧
          pyStartsWith s "FR-" = true := by
        revert hid
        cases hlid : List.lookup "id" tfs with
        | none => intro hid; cases hid
        | some v =>
          cases v with
          | str s =>
            intro hid
            simp only [specIdPatternB, Bool.and_eq_true] at hid
            exact ⟨s, rfl, hid.1⟩
          | null => intro hid; cases hid
          | bool b => intro hid; cases hid
          | num q => intro hid; cases hid
          | arr xs => intro hid; cases hid
          | obj o => intro hid; cases hid
      have hls : List.lookup "status" tfs = some (.str "Under Review") := by
        revert hstat
        cases hls0 : List.lookup "status" tfs with
        | none => intro hstat; cases hstat
        | some v =>
          cases v with
          | str s0 =>
            intro hstat
            have h0 : s0 = "Under Review" := beq_iff_eq.mp hstat
            rw [h0]
          | null => intro hstat; cases hstat
          | bool b => intro hstat; cases hstat
          | num q => intro hstat; cases hstat
          | arr xs => intro hstat; cases hstat
          | obj o => intro hstat; cases hstat
      simp only [generateFeatureRequestData, generateFeatureRequestBody, parsedOf,
                 pyContains, pyIndex, hlt, Option.isSome_some, checkRequired_obj_ok hpres,
                 hlid, pyAttrStartsWith, hsw, Json.set, setField_of_lookup_eq hls,
                 setField_of_lookup_eq hlt]
    | null => simp [specIdPatternB, Json.get?] at hid
    | bool b => simp [specIdPatternB, Json.get?] at hid
    | num q => simp [specIdPatternB, Json.get?] at hid
    | str s => simp [specIdPatternB, Json.get?] at hid
    | arr xs => simp [specIdPatternB, Json.get?] at hid

theorem inquiryRepair_noop {fs : List (String × Json)} (m p : String)
    (h : specInquiryOk (.obj fs) = true) :
    generateGeneralInquiryData (.content (some (.obj fs))) m p = .obj fs := by
  simp only [specInquiryOk, Json.get?, Bool.and_eq_true] at h
  obtain ⟨hcat, hrev, hres⟩ := h
  obtain ⟨s, hlc, hmem⟩ : ∃ s, List.lookup "inquiry_category" fs = some (.str s) ∧
      specInquiryCategories.contains s = true := by
    revert hcat
    cases hlc : List.lookup "inquiry_category" fs with
    | none => intro hcat; cases hcat
    | some v =>
      cases v with
      | str s => intro hcat; exact ⟨s, rfl, hcat⟩
      | null => intro hcat; cases hcat
      | bool b => intro hcat; cases hcat
      | num q => intro hcat; cases hcat
      | arr xs => intro hcat; cases hcat
      | obj o => intro hcat; cases hcat
  obtain ⟨b, hlb⟩ : ∃ b, List.lookup "requires_human_review" fs = some (.bool b) := by
    revert hrev
    cases hlb : List.lookup "requires_human_review" fs with
    | none => intro hrev; cases hrev
    | some v =>
      cases v with
      | bool b => intro hrev; exact ⟨b, rfl⟩
      | null => intro hrev; cases hrev
      | str s2 => intro hrev; cases hrev
      | num q => intro hrev; cases hrev
      | arr xs => intro hrev; cases hrev
      | obj o => intro hrev; cases hrev
  obtain ⟨xs, hlx, hallx⟩ : ∃ xs, List.lookup "suggested_resources" fs = some (.arr xs) ∧
      xs.all specResourceOk = true := by
    revert hres
    cases hlx : List.lookup "suggested_resources" fs with
    | none => intro hres; cases hres
    | some v =>
      cases v with
      | arr xs => intro hres; exact ⟨xs, rfl, hres⟩
      | null => intro hres; cases hres
      | str s2 => intro hres; cases hres
      | num q => intro hres; cases hres
      | bool b2 => intro hres; cases hres
      | obj o => intro hres; cases hres
  have hpres : ∀ f ∈ inquiryRequiredFields, (List.lookup f fs).isSome = true := by
    intro f hf
    simp only [inquiryRequiredFields, List.mem_cons, List.not_mem_nil, or_false] at hf
    rcases hf with rfl | rfl | rfl
    · rw [hlc]; rfl
    · rw [hlb]; rfl
    · rw [hlx]; rfl
  have hany : (validCategories.any fun x => Json.beq (.str s) (.str x)) = true :=
    any_beq_of_contains hmem
  simp only [generateGeneralInquiryData, generateGeneralInquiryBody, parsedOf,
             checkRequired_obj_ok hpres, inquiryRepairCategory, inquiryRepairReview,
             inquiryRepairResources, inquiryMapResources, pyIndex, hlc, hlb, hlx,
             hany, if_true, Json.set,
             map_repairResource_noop hallx, setField_of_lookup_eq hlx]

theorem processMessage_cases (resp : ModelResponse) (m p : String) :
    process_message resp m p = generate_fallback m p ∨
    (∃ pd, resp = .content (some pd) ∧ processMessageBody resp m p = .ok pd ∧
      process_message resp m p = pd) := by
  rcases resp with e | op
  · left; rfl
  · rcases op with _ | pd
    · left; rfl
    · rcases h1 : pyContains pd "message_type" with e1 | b1
      · left
        simp [process_message, processMessageBody, parsedOf, h1]
      · cases b1
        · left
          simp [process_message, processMessageBody, parsedOf, h1]
        · rcases h2 : pyContains pd "confidence_score" with e2 | b2
          · left
            simp [process_message, processMessageBody, parsedOf, h1, h2]
          · cases b2
            · left
              simp [process_message, processMessageBody, parsedOf, h1, h2]
            · rcases h3 : pyContains pd "response_data" with e3 | b3
              · left
                simp [process_message, processMessageBody, parsedOf, h1, h2, h3]
              · cases b3
                · left
                  simp [process_message, processMessageBody, parsedOf, h1, h2, h3]
                · right
                  refine ⟨pd, rfl, ?_, ?_⟩ <;>
                    simp [process_message, processMessageBody, parsedOf, h1, h2, h3]

/-- Scenario C model payload from the spec (§8). -/
def scenarioCPayload : Json :=
  .obj [("inquiry_category", .str "Unknown"),
        ("requires_human_review", .str "yes"),
        ("suggested_resources", .str "none")]

example :
    generateGeneralInquiryData (.content (some scenarioCPayload)) "msg" "prod" =
      .obj [("inquiry_category", .str "Other"),
            ("requires_human_review", .bool true),
            ("suggested_resources", .arr [])] := rfl

example :
    getStrPath (generateBugReportData
      (.content (some (.obj [("ticket", .obj [
        ("id", .str "xyz"), ("title", .str "t"), ("severity", .str "High"),
        ("affected_component", .str "c"),
        ("reproduction_steps", .arr [.str "s"]),
        ("priority", .str "Low"), ("assigned_team", .str "T")])])))
      "m" "p" 4321 1111) ["ticket", "id"] = some "BUG-4321" := by decide

example :
    process_message (.raise .apiTimeout) "m" "p" = generate_fallback "m" "p" := rfl

example : decimalRepr 1234 = "1234" := by decide
example : bugIdString 1000 = "BUG-1000" := by decide
example : pyStartsWith "BUG-77" "BUG-" = true := by decide
example : pyStartsWith "77" "BUG-" = false := by decide
example : strContainsSub "hello billing world" "billing" = true := by decide
example : strContainsSub "hello" "billing" = false := by decide

/-! ### Claims -/

theorem processMessage_missing_key_fallback {fsr : List (String × Json)} (m p : String)
    (h : List.lookup "message_type" fsr = none ∨
         List.lookup "confidence_score" fsr = none ∨
         List.lookup "response_data" fsr = none) :
    process_message (.content (some (.obj fsr))) m p = generate_fallback m p := by
  rcases h with h1 | h2 | h3
  · have hb : (List.lookup "message_type" fsr).isSome = false := by rw [h1]; rfl
    simp [process_message, processMessageBody, parsedOf, pyContains, hb]
  · have hb : (List.lookup "confidence_score" fsr).isSome = false := by rw [h2]; rfl
    cases hmt : (List.lookup "message_type" fsr).isSome with
    | false => simp [process_message, processMessageBody, parsedOf, pyContains, hmt]
    | true => simp [process_message, processMessageBody, parsedOf, pyContains, hmt, hb]
  · have hb : (List.lookup "response_data" fsr).isSome = false := by rw [h3]; rfl
    cases hmt : (List.lookup "message_type" fsr).isSome with
    | false => simp [process_message, processMessageBody, parsedOf, pyContains, hmt]
    | true =>
      cases hcs : (List.lookup "confidence_score" fsr).isSome with
      | false => simp [process_message, processMessageBody, parsedOf, pyContains, hmt, hcs]
      | true => simp [process_message, processMessageBody, parsedOf, pyContains, hmt, hcs, hb]

/-- C1: for every message, product and behaviour of the external call
(raise, undecodable text, missing required top-level fields), the
message-processing operation is total — every outcome is either the parsed
result or the fallback — each of the three enumerated failure modes
(raised call, malformed JSON, and a parsed object missing any of the three
required top-level keys) returns the fallback, and the fallback is
well-formed with `confidence_score` exactly `0.3` and
`requires_human_review = true`; the classifier-level fallback triple uses
the same constants. -/
theorem c1_processing_never_raises_and_failure_paths_yield_fallback :
    (∀ (m p : String) (e : PyErr),
      process_message (.raise e) m p = generate_fallback m p) ∧
    (∀ m p : String, process_message (.content none) m p = generate_fallback m p) ∧
    (∀ (m p : String) (resp : ModelResponse),
      process_message resp m p = generate_fallback m p ∨
      ∃ pd, resp = .content (some pd) ∧ process_message resp m p = pd) ∧
    (∀ (fsr : List (String × Json)) (m p : String),
      (List.lookup "message_type" fsr = none ∨
       List.lookup "confidence_score" fsr = none ∨
       List.lookup "response_data" fsr = none) →
      process_message (.content (some (.obj fsr))) m p = generate_fallback m p) ∧
    (∀ m p : String,
      getNumPath (generate_fallback m p) ["confidence_score"] = some (3/10) ∧
      getBoolPath (generate_fallback m p) ["response_data", "requires_human_review"] = some true ∧
      getStrPath (generate_fallback m p) ["message_type"] = some "general_inquiry" ∧
      (match (generate_fallback m p).get? "response_data" with
       | some rd => specInquiryOk rd
       | none => false) = true) ∧
    (handle_fallback_case.2.1 = .num (3/10) ∧
     getBoolPath handle_fallback_case.2.2 ["requires_human_review"] = some true ∧
     specInquiryOk handle_fallback_case.2.2 = true) ∧
    ((0 : Rat) ≤ 3/10 ∧ (3/10 : Rat) ≤ 1) := by
  refine ⟨fun m p e => rfl, fun m p => rfl, ?_,
          fun fsr m p h => processMessage_missing_key_fallback m p h,
          fun m p => ⟨rfl, rfl, rfl, rfl⟩, ⟨rfl, rfl, rfl⟩, by norm_num⟩
  intro m p resp
  exact (processMessage_cases resp m p).imp (fun h => h)
    (fun h => by obtain ⟨pd, h1, _, h3⟩ := h; exact ⟨pd, h1, h3⟩)

/-- C1 witness: the missing-required-key clause applied at concrete
payloads that omit, respectively, `confidence_score` (with the other two
keys present), `message_type`, and `response_data`. -/
theorem c1_processing_never_raises_and_failure_paths_yield_fallback_witness :
    process_message (.content (some (.obj
      [("message_type", .str "bug_report"), ("response_data", .obj [])]))) "m" "p" =
      generate_fallback "m" "p" ∧
    process_message (.content (some (.obj
      [("confidence_score", .num (9/10)), ("response_data", .obj [])]))) "m" "p" =
      generate_fallback "m" "p" ∧
    process_message (.content (some (.obj
      [("message_type", .str "bug_report"), ("confidence_score", .num (9/10))]))) "m" "p" =
      generate_fallback "m" "p" :=
  ⟨c1_processing_never_raises_and_failure_paths_yield_fallback.2.2.2.1
      [("message_type", .str "bug_report"), ("response_data", .obj [])] "m" "p"
      (Or.inr (Or.inl rfl)),
   c1_processing_never_raises_and_failure_paths_yield_fallback.2.2.2.1
      [("confidence_score", .num (9/10)), ("response_data", .obj [])] "m" "p"
      (Or.inl rfl),
   c1_processing_never_raises_and_failure_paths_yield_fallback.2.2.2.1
      [("message_type", .str "bug_report"), ("confidence_score", .num (9/10))] "m" "p"
      (Or.inr (Or.inr rfl))⟩

/-- C4 counterexample: on the spec's scenario-C payload the claim fails —
`suggested_resources` is replaced by the empty list, not a non-empty
placeholder list (category and review are repaired as claimed). -/
theorem c4_counterexample :
    ¬ (getStrPath (generateGeneralInquiryData (.content (some scenarioCPayload)) "msg" "prod")
          ["inquiry_category"] = some "Other" ∧
       getBoolPath (generateGeneralInquiryData (.content (some scenarioCPayload)) "msg" "prod")
          ["requires_human_review"] = some true ∧
       ∃ xs, (generateGeneralInquiryData (.content (some scenarioCPayload)) "msg" "prod").get?
          "suggested_resources" = some (.arr xs) ∧ xs ≠ []) := by
  rintro ⟨h1, h2, xs, hx, hne⟩
  have hx2 : some (Json.arr []) = some (Json.arr xs) :=
    (show (generateGeneralInquiryData (.content (some scenarioCPayload)) "msg" "prod").get?
        "suggested_resources" = some (.arr []) from rfl).symm.trans hx
  simp only [Option.some.injEq, Json.arr.injEq] at hx2
  exact hne hx2.symm

/-- C4 amended: the scenario-C payload is repaired to
`inquiry_category = "Other"`, `requires_human_review = true`, and
`suggested_resources` replaced by the empty list (a non-list value becomes
`[]`; the placeholder resource is used only for malformed entries inside a
supplied list). -/
theorem c4_amended_scenario_c_yields_empty_resources :
    ∀ m p : String,
      generateGeneralInquiryData (.content (some scenarioCPayload)) m p =
        .obj [("inquiry_category", .str "Other"),
              ("requires_human_review", .bool true),
              ("suggested_resources", .arr [])] :=
  fun m p => rfl

/-- C9 counterexample: two executions of the bug-report fallback path for
the same product with different `random.randint` draws produce records with
different identifiers, so the fallback record is not deterministic
including its identifier. -/
theorem c9_counterexample :
    ¬ (∀ n1 n2 : Nat, 1000 ≤ n1 → n1 ≤ 9999 → 1000 ≤ n2 → n2 ≤ 9999 →
        bugFallbackData "prod" n1 = bugFallbackData "prod" n2) := by
  intro h
  have h2 := h 1000 1001 (by norm_num) (by norm_num) (by norm_num) (by norm_num)
  have h3 : getStrPath (bugFallbackData "prod" 1000) ["ticket", "id"] =
      getStrPath (bugFallbackData "prod" 1001) ["ticket", "id"] := by rw [h2]
  rw [(by decide : getStrPath (bugFallbackData "prod" 1000) ["ticket", "id"] = some "BUG-1000"),
      (by decide : getStrPath (bugFallbackData "prod" 1001) ["ticket", "id"] = some "BUG-1001")] at h3
  exact absurd h3 (by decide)

/-- C9 amended: each fallback record is statically defined and
deterministic in every field except the identifier, which embeds the fresh
`random.randint` draw (`BUG-`/`FR-` + the drawn number); the
general-inquiry fallback of the processor is fully deterministic, with a
`response_data` that does not depend on the message or product at all. -/
theorem c9_amended_fallback_static_except_random_id :
    (∀ (p : String) (n1 n2 : Nat),
      (getPath (bugFallbackData p n1) ["ticket"]).map (fun t => t.set "id" .null) =
      (getPath (bugFallbackData p n2) ["ticket"]).map (fun t => t.set "id" .null)) ∧
    (∀ (p : String) (n : Nat),
      getStrPath (bugFallbackData p n) ["ticket", "id"] = some (bugIdString n)) ∧
    (∀ (p : String) (n1 n2 : Nat),
      (getPath (frFallbackData p n1) ["product_requirement"]).map (fun t => t.set "id" .null) =
      (getPath (frFallbackData p n2) ["product_requirement"]).map (fun t => t.set "id" .null)) ∧
    (∀ (p : String) (n : Nat),
      getStrPath (frFallbackData p n) ["product_requirement", "id"] = some (frIdString n)) ∧
    (∀ m p : String, (generate_fallback m p).get? "response_data" =
      some (.obj [
        ("inquiry_category", .str "Other"),
        ("requires_human_review", .bool true),
        ("suggested_resources", .arr [
          .obj [("title", .str "Help Center"), ("url", .str "https://example.com/help")],
          .obj [("title", .str "Contact Support"),
                ("url", .str "https://example.com/support")]])])) :=
  ⟨fun p n1 n2 => rfl, fun p n => rfl, fun p n1 n2 => rfl, fun p n => rfl, fun m p => rfl⟩

/-- C10: every identifier the system generates itself — `f"BUG-{n}"` /
`f"FR-{n}"` with `n = random.randint(1000, 9999)`, used in both fallback
records and when replacing a wrongly prefixed model id — is the category
prefix followed by exactly four decimal digits, hence matches the §3 id
pattern. -/
theorem c10_generated_ids_match_pattern :
    ∀ n : Nat, 1000 ≤ n → n ≤ 9999 →
      specIdPattern "BUG-" (bugIdString n) ∧
      specIdPattern "FR-" (frIdString n) ∧
      (decimalRepr n).data.length = 4 ∧
      (∀ p : String, getStrPath (bugFallbackData p n) ["ticket", "id"] = some (bugIdString n)) ∧
      (∀ p : String, getStrPath (frFallbackData p n) ["product_requirement", "id"] =
        some (frIdString n)) := by
  intro n h1 h2
  have hlen : (decimalRepr n).data.length = 4 := decimalRepr_len4 h1 h2
  have hne : (decimalRepr n).data ≠ [] := by
    intro hnil
    rw [hnil] at hlen
    cases hlen
  exact ⟨⟨decimalRepr n, rfl, hne, decimalRepr_all_digits n⟩,
         ⟨decimalRepr n, rfl, hne, decimalRepr_all_digits n⟩,
         hlen, fun p => rfl, fun p => rfl⟩

/-- C10 witness: the generated-id pattern facts instantiated at the
concrete draw `1234`. -/
theorem c10_generated_ids_match_pattern_witness :
    specIdPattern "BUG-" (bugIdString 1234) ∧
    specIdPattern "FR-" (frIdString 1234) ∧
    (decimalRepr 1234).data.length = 4 ∧
    (∀ p : String, getStrPath (bugFallbackData p 1234) ["ticket", "id"] =
      some (bugIdString 1234)) ∧
    (∀ p : String, getStrPath (frFallbackData p 1234) ["product_requirement", "id"] =
      some (frIdString 1234)) :=
  c10_generated_ids_match_pattern 1234 (by norm_num) (by norm_num)

/-- A model bug-report response in which every required field is present
and the id carries the `BUG-` prefix, but `severity`, `priority` and
`reproduction_steps` all violate their §3 constraints. -/
def c2BadBugPayload : Json :=
  .obj [("ticket", .obj [
    ("id", .str "BUG-1"),
    ("title", .str "t"),
    ("severity", .str "Extreme"),
    ("affected_component", .str "c"),
    ("reproduction_steps", .arr []),
    ("priority", .str "P0"),
    ("assigned_team", .str "T")])]

/-- C2 counterexample: the bug-report repairer returns `c2BadBugPayload`
unchanged, and the result violates the §3 field-constraint table
(severity `"Extreme"`, priority `"P0"`, empty `reproduction_steps`), so
the repaired record does not always satisfy every §3 constraint. -/
theorem c2_counterexample :
    specBugPayloadOk (generateBugReportData (.content (some c2BadBugPayload))
      "m" "p" 1000 2000) = false ∧
    generateBugReportData (.content (some c2BadBugPayload)) "m" "p" 1000 2000 =
      c2BadBugPayload :=
  ⟨by decide, rfl⟩

/-- C2 amended: the repairers enforce only field presence, the category id
prefix, the forced FeatureRequest status, and the full GeneralInquiry
constraints; enum-valued fields (`severity`, `priority`,
`complexity_estimate`), the contents of `reproduction_steps`, and the
digits of a correctly prefixed id are passed through unvalidated.  Repair
of an already-§3-valid record is the identity. -/
theorem c2_amended_repair_guarantees :
    (∀ (resp : ModelResponse) (m p : String) (n1 n2 : Nat),
      codeBugGuarantee (generateBugReportData resp m p n1 n2) = true) ∧
    (∀ (resp : ModelResponse) (m p : String) (n1 n2 : Nat),
      codeFrGuarantee (generateFeatureRequestData resp m p n1 n2) = true) ∧
    (∀ (resp : ModelResponse) (m p : String),
      specInquiryOk (generateGeneralInquiryData resp m p) = true) ∧
    (∀ (fs : List (String × Json)) (m p : String) (n1 n2 : Nat),
      specBugPayloadOk (.obj fs) = true →
      generateBugReportData (.content (some (.obj fs))) m p n1 n2 = .obj fs) ∧
    (∀ (fs : List (String × Json)) (m p : String) (n1 n2 : Nat),
      specFrPayloadOk (.obj fs) = true →
      generateFeatureRequestData (.content (some (.obj fs))) m p n1 n2 = .obj fs) ∧
    (∀ (fs : List (String × Json)) (m p : String),
      specInquiryOk (.obj fs) = true →
      generateGeneralInquiryData (.content (some (.obj fs))) m p = .obj fs) :=
  ⟨codeBugGuarantee_total, codeFrGuarantee_total, specInquiryOk_total,
   fun fs m p n1 n2 h => bugRepair_noop m p n1 n2 h,
   fun fs m p n1 n2 h => frRepair_noop m p n1 n2 h,
   fun fs m p h => inquiryRepair_noop m p h⟩

/-- A fully §3-valid bug ticket payload. -/
def c2ValidBugFields : List (String × Json) :=
  [("ticket", .obj [
    ("id", .str "BUG-1234"),
    ("title", .str "Login broken"),
    ("severity", .str "High"),
    ("affected_component", .str "Auth"),
    ("reproduction_steps", .arr [.str "open page", .str "click login"]),
    ("priority", .str "High"),
    ("assigned_team", .str "Core")])]

/-- A fully §3-valid feature-request payload. -/
def c2ValidFrFields : List (String × Json) :=
  [("product_requirement", .obj [
    ("id", .str "FR-5678"),
    ("title", .str "Dark mode"),
    ("description", .str "Add dark mode"),
    ("user_story", .str "As a user, I want dark mode so that my eyes rest"),
    ("business_value", .str "High - retention"),
    ("complexity_estimate", .str "Medium"),
    ("affected_components", .arr [.str "UI"]),
    ("status", .str "Under Review")])]

/-- A fully §3-valid general-inquiry payload. -/
def c2ValidInqFields : List (String × Json) :=
  [("inquiry_category", .str "Billing"),
   ("requires_human_review", .bool false),
   ("suggested_resources", .arr [
     .obj [("title", .str "Billing FAQ"), ("url", .str "https://example.com/billing-faq")]])]

/-- C2 witness: the amended idempotence clauses applied at concrete
§3-valid payloads for all three categories. -/
theorem c2_amended_repair_guarantees_witness :
    generateBugReportData (.content (some (.obj c2ValidBugFields))) "m" "p" 1 2 =
      .obj c2ValidBugFields ∧
    generateFeatureRequestData (.content (some (.obj c2ValidFrFields))) "m" "p" 1 2 =
      .obj c2ValidFrFields ∧
    generateGeneralInquiryData (.content (some (.obj c2ValidInqFields))) "m" "p" =
      .obj c2ValidInqFields :=
  ⟨c2_amended_repair_guarantees.2.2.2.1 c2ValidBugFields "m" "p" 1 2 (by decide),
   c2_amended_repair_guarantees.2.2.2.2.1 c2ValidFrFields "m" "p" 1 2 (by decide),
   c2_amended_repair_guarantees.2.2.2.2.2 c2ValidInqFields "m" "p" (by decide)⟩

/-- `classify_message` on the message `"hello"` skips all three test-case
short circuits and runs the classification body. -/
theorem classify_hello_eq_body (clsResp dataResp : ModelResponse) (p : String) (n1 n2 : Nat) :
    classify_message clsResp dataResp "hello" p n1 n2 =
      match classifyBody clsResp dataResp "hello" p n1 n2 with
      | .ok t => t
      | .error _ => handle_fallback_case := rfl

/-- A model result whose `confidence_score` is `2`, outside `[0, 1]`. -/
def c3OverConfidentResult : Json :=
  .obj [("message_type", .str "bug_report"),
        ("confidence_score", .num 2),
        ("response_data", .obj [("ticket", .obj [])]),
        ("customer_response", .str "r")]

/-- C3 counterexample: on the success path the processor returns the model
result unchanged, so a model-supplied `confidence_score` of `2` reaches the
caller — it is neither clamped nor replaced, and `2 ∉ [0, 1]`. -/
theorem c3_counterexample :
    getNumPath (process_message (.content (some c3OverConfidentResult)) "m" "p")
      ["confidence_score"] = some 2 ∧
    ¬ ((2 : Rat) ≤ 1) :=
  ⟨rfl, by norm_num⟩

/-- C3 amended: both fallback paths yield the constant `0.3`, which lies in
`[0, 1]`, but the success paths pass the model-supplied confidence through
without clamping: the processor returns the parsed value verbatim and the
classifier returns the `dict.get` value verbatim, whatever rational the
model supplied. -/
theorem c3_amended_confidence_unclamped_on_success :
    (∀ m p : String, getNumPath (generate_fallback m p) ["confidence_score"] = some (3/10)) ∧
    handle_fallback_case.2.1 = .num (3/10) ∧
    ((0 : Rat) ≤ 3/10 ∧ (3/10 : Rat) ≤ 1) ∧
    (∀ (fsr : List (String × Json)) (m p : String) (q : Rat),
      (List.lookup "message_type" fsr).isSome = true →
      List.lookup "confidence_score" fsr = some (.num q) →
      (List.lookup "response_data" fsr).isSome = true →
      getNumPath (process_message (.content (some (.obj fsr))) m p)
        ["confidence_score"] = some q) ∧
    (∀ (cfs : List (String × Json)) (dataResp : ModelResponse) (p : String)
        (n1 n2 : Nat) (q : Rat),
      List.lookup "confidence_score" cfs = some (.num q) →
      (classify_message (.content (some (.obj cfs))) dataResp "hello" p n1 n2).2.1 =
        .num q) := by
  refine ⟨fun m p => rfl, rfl, by norm_num, ?_, ?_⟩
  · intro fsr m p q h1 h2 h3
    have h2s : (List.lookup "confidence_score" fsr).isSome = true := by rw [h2]; rfl
    simp only [process_message, processMessageBody, parsedOf, pyContains, h1, h2s, h3]
    simp [getNumPath, getPath, Json.get?, h2]
  · intro cfs dataResp p n1 n2 q h
    rw [classify_hello_eq_body]
    simp [classifyBody, parsedOf, pyGet, h]

/-- C3 witness: the amended pass-through clauses instantiated with the
out-of-range confidence `2` on the processor path and `3/2` on the
classifier path. -/
theorem c3_amended_confidence_unclamped_on_success_witness :
    getNumPath (process_message (.content (some (.obj
        [("message_type", .str "bug_report"), ("confidence_score", .num 2),
         ("response_data", .obj [])]))) "m" "p") ["confidence_score"] = some 2 ∧
    (classify_message (.content (some (.obj [("confidence_score", .num (3/2))])))
        (.content none) "hello" "p" 1 2).2.1 = .num (3/2) :=
  ⟨c3_amended_confidence_unclamped_on_success.2.2.2.1
      [("message_type", .str "bug_report"), ("confidence_score", .num 2),
       ("response_data", .obj [])] "m" "p" 2 rfl rfl rfl,
   c3_amended_confidence_unclamped_on_success.2.2.2.2
      [("confidence_score", .num (3/2))] (.content none) "p" 1 2 (3/2) rfl⟩

/-- A model feature-request success result whose nested `status` is
`"Rejected"`. -/
def c5ModelResult : Json :=
  .obj [("message_type", .str "feature_request"),
        ("confidence_score", .num (9/10)),
        ("response_data", .obj [("product_requirement", .obj [
          ("id", .str "FR-1"), ("status", .str "Rejected")])]),
        ("customer_response", .str "r")]

/-- C5 counterexample: on the processor's success path a feature-request
result is returned as-is, so a model-supplied `status = "Rejected"` reaches
the caller instead of the constant `"Under Review"`. -/
theorem c5_counterexample :
    getStrPath (process_message (.content (some c5ModelResult)) "m" "p")
      ["message_type"] = some "feature_request" ∧
    getStrPath (process_message (.content (some c5ModelResult)) "m" "p")
      ["response_data", "product_requirement", "status"] = some "Rejected" ∧
    "Rejected" ≠ "Under Review" :=
  ⟨rfl, rfl, by decide⟩

/-- C5 amended: the classifier pipeline does force
`status = "Under Review"` on every path (success, repair and fallback) of
its feature-request generator, but the processor pipeline returns
`response_data` unmodified, so there the status is model-controlled. -/
theorem c5_amended_status_forced_only_in_classifier :
    ∀ (resp : ModelResponse) (m p : String) (n1 n2 : Nat),
      getStrPath (generateFeatureRequestData resp m p n1 n2)
        ["product_requirement", "status"] = some "Under Review" := by
  intro resp m p n1 n2
  have h := codeFrGuarantee_total resp m p n1 n2
  revert h
  unfold codeFrGuarantee
  cases hw : (generateFeatureRequestData resp m p n1 n2).get? "product_requirement" with
  | none => intro h; exact Bool.noConfusion h
  | some t =>
    cases t with
    | obj tfs =>
      intro h
      simp only [Bool.and_eq_true] at h
      obtain ⟨hall, hid, hstat⟩ := h
      have hls : List.lookup "status" tfs = some (.str "Under Review") := by
        revert hstat
        cases hls0 : List.lookup "status" tfs with
        | none => intro hstat; exact Bool.noConfusion hstat
        | some v =>
          cases v with
          | str s0 => intro hstat; rw [beq_iff_eq.mp hstat]
          | null => intro hstat; exact Bool.noConfusion hstat
          | bool b => intro hstat; exact Bool.noConfusion hstat
          | num q => intro hstat; exact Bool.noConfusion hstat
          | arr xs => intro hstat; exact Bool.noConfusion hstat
          | obj o => intro hstat; exact Bool.noConfusion hstat
      simp only [getStrPath, getPath, List.foldl, Option.some_bind]
      rw [hw]
      simp only [Option.some_bind]
      rw [show Json.get? (.obj tfs) "status" = some (.str "Under Review") from hls]
    | null => intro h; exact Bool.noConfusion h
    | bool b => intro h; exact Bool.noConfusion h
    | num q => intro h; exact Bool.noConfusion h
    | str s => intro h; exact Bool.noConfusion h
    | arr xs => intro h; exact Bool.noConfusion h

theorem bugBody_id_spec {pd out : Json} {n : Nat} {s : String}
    (h : generateBugReportBody (.content (some pd)) n = .ok out)
    (hid : getStrPath pd ["ticket", "id"] = some s) :
    getStrPath out ["ticket", "id"] =
      some (if pyStartsWith s "BUG-" then s else bugIdString n) := by
  unfold generateBugReportBody at h
  simp only [parsedOf] at h
  split at h
  · exact absurd h (by simp)
  · exact absurd h (by simp)
  rename_i heqc
  split at h
  · exact absurd h (by simp)
  rename_i ticket heqi
  split at h
  · exact absurd h (by simp)
  rename_i u hreq
  split at h
  · exact absurd h (by simp)
  rename_i idv heqid
  split at h
  · exact absurd h (by simp)
  case _ hsw =>
    cases h
    obtain ⟨fs, rfl, hlk⟩ := pyIndex_ok heqi
    obtain ⟨tfs, rfl, htk⟩ := pyIndex_ok heqid
    obtain ⟨s2, rfl, hsws⟩ := pyAttrStartsWith_ok hsw
    simp only [getStrPath, getPath, List.foldl, Option.some_bind, Json.get?,
               hlk, htk, Option.some.injEq] at hid
    subst hid
    simp only [getStrPath, getPath, List.foldl, Option.some_bind, Json.get?, hlk, htk, hsws,
               if_true]
  case _ hsw =>
    cases h
    obtain ⟨fs, rfl, hlk⟩ := pyIndex_ok heqi
    obtain ⟨tfs, rfl, htk⟩ := pyIndex_ok heqid
    obtain ⟨s2, rfl, hsws⟩ := pyAttrStartsWith_ok hsw
    simp only [getStrPath, getPath, List.foldl, Option.some_bind, Json.get?,
               hlk, htk, Option.some.injEq] at hid
    subst hid
    simp only [Json.set, getStrPath, getPath, List.foldl, Option.some_bind, Json.get?,
               lookup_setField_self, hsws, Bool.false_eq_true, if_false]

theorem frBody_id_spec {pd out : Json} {n : Nat} {s : String}
    (h : generateFeatureRequestBody (.content (some pd)) n = .ok out)
    (hid : getStrPath pd ["product_requirement", "id"] = some s) :
    getStrPath out ["product_requirement", "id"] =
      some (if pyStartsWith s "FR-" then s else frIdString n) := by
  unfold generateFeatureRequestBody at h
  simp only [parsedOf] at h
  split at h
  · exact absurd h (by simp)
  · exact absurd h (by simp)
  rename_i heqc
  split at h
  · exact absurd h (by simp)
  rename_i req heqi
  split at h
  · exact absurd h (by simp)
  rename_i u hreq
  split at h
  · exact absurd h (by simp)
  rename_i idv heqid
  split at h
  · exact absurd h (by simp)
  case _ hsw =>
    cases h
    obtain ⟨fs, rfl, hlk⟩ := pyIndex_ok heqi
    obtain ⟨tfs, rfl, htk⟩ := pyIndex_ok heqid
    obtain ⟨s2, rfl, hsws⟩ := pyAttrStartsWith_ok hsw
    simp only [getStrPath, getPath, List.foldl, Option.some_bind, Json.get?,
               hlk, htk, Option.some.injEq] at hid
    subst hid
    simp only [Json.set, getStrPath, getPath, List.foldl, Option.some_bind, Json.get?,
               lookup_setField_self,
               lookup_setField_ne _ _ (by decide : "id" ≠ "status"), htk, hsws, if_true]
  case _ hsw =>
    cases h
    obtain ⟨fs, rfl, hlk⟩ := pyIndex_ok heqi
    obtain ⟨tfs, rfl, htk⟩ := pyIndex_ok heqid
    obtain ⟨s2, rfl, hsws⟩ := pyAttrStartsWith_ok hsw
    simp only [getStrPath, getPath, List.foldl, Option.some_bind, Json.get?,
               hlk, htk, Option.some.injEq] at hid
    subst hid
    simp only [Json.set, getStrPath, getPath, List.foldl, Option.some_bind, Json.get?,
               lookup_setField_self,
               lookup_setField_ne _ _ (by decide : "id" ≠ "status"), hsws,
               Bool.false_eq_true, if_false]

/-- C6: for every model-supplied id string reaching the id-format check, a
correctly prefixed id is passed through to the returned record unchanged,
and an id lacking the category prefix is replaced by the freshly generated
correctly prefixed identifier, in both the bug-report and feature-request
repairers. -/
theorem c6_id_repaired_exactly_when_wrongly_prefixed :
    (∀ (pd out : Json) (n : Nat) (s : String),
      generateBugReportBody (.content (some pd)) n = .ok out →
      getStrPath pd ["ticket", "id"] = some s →
      getStrPath out ["ticket", "id"] =
        some (if pyStartsWith s "BUG-" then s else bugIdString n)) ∧
    (∀ (pd out : Json) (n : Nat) (s : String),
      generateFeatureRequestBody (.content (some pd)) n = .ok out →
      getStrPath pd ["product_requirement", "id"] = some s →
      getStrPath out ["product_requirement", "id"] =
        some (if pyStartsWith s "FR-" then s else frIdString n)) :=
  ⟨fun pd out n s h hid => bugBody_id_spec h hid,
   fun pd out n s h hid => frBody_id_spec h hid⟩

/-- A complete bug payload whose id already carries the `BUG-` prefix. -/
def c6BugPayload : Json :=
  .obj [("ticket", .obj [
    ("id", .str "BUG-77"), ("title", .str "t"), ("severity", .str "High"),
    ("affected_component", .str "c"), ("reproduction_steps", .arr [.str "s"]),
    ("priority", .str "Low"), ("assigned_team", .str "T")])]

/-- A complete feature-request payload whose id lacks the `FR-` prefix. -/
def c6FrPayload : Json :=
  .obj [("product_requirement", .obj [
    ("id", .str "9"), ("title", .str "t"), ("description", .str "d"),
    ("user_story", .str "u"), ("business_value", .str "b"),
    ("complexity_estimate", .str "Low"), ("affected_components", .arr []),
    ("status", .str "New")])]

/-- C6 witness: the id rule instantiated at a correctly prefixed bug id
(passed through) and at an unprefixed feature-request id (replaced). -/
theorem c6_id_rule_witness :
    getStrPath c6BugPayload ["ticket", "id"] =
      some (if pyStartsWith "BUG-77" "BUG-" then "BUG-77" else bugIdString 1111) ∧
    getStrPath (.obj [("product_requirement", .obj [
        ("id", .str (frIdString 4321)), ("title", .str "t"), ("description", .str "d"),
        ("user_story", .str "u"), ("business_value", .str "b"),
        ("complexity_estimate", .str "Low"), ("affected_components", .arr []),
        ("status", .str "Under Review")])]) ["product_requirement", "id"] =
      some (if pyStartsWith "9" "FR-" then "9" else frIdString 4321) :=
  ⟨c6_id_repaired_exactly_when_wrongly_prefixed.1 c6BugPayload c6BugPayload 1111 "BUG-77"
      rfl rfl,
   c6_id_repaired_exactly_when_wrongly_prefixed.2 c6FrPayload
      (.obj [("product_requirement", .obj [
        ("id", .str (frIdString 4321)), ("title", .str "t"), ("description", .str "d"),
        ("user_story", .str "u"), ("business_value", .str "b"),
        ("complexity_estimate", .str "Low"), ("affected_components", .arr []),
        ("status", .str "Under Review")])]) 4321 "9" rfl rfl⟩

/-- A well-formed classification response available from the second call
attempt onwards. -/
def c7GoodClassification : Json :=
  .obj [("message_type", .str "bug_report"),
        ("confidence_score", .num (9/10)),
        ("reasoning", .str "user reports broken login")]

/-- Classification call behaviour: the first attempt raises a transient
timeout, every later attempt returns `c7GoodClassification`. -/
def c7ClsAttempts : Nat → ModelResponse :=
  fun i => if i = 0 then .raise .apiTimeout else .content (some c7GoodClassification)

/-- A fully valid ticket payload for the generation call. -/
def c7GoodTicketPayload : Json :=
  .obj [("ticket", .obj [
    ("id", .str "BUG-4242"), ("title", .str "Login broken"), ("severity", .str "High"),
    ("affected_component", .str "Auth"), ("reproduction_steps", .arr [.str "login"]),
    ("priority", .str "High"), ("assigned_team", .str "Core")])]

/-- Generation call behaviour: every attempt succeeds. -/
def c7DataAttempts : Nat → ModelResponse :=
  fun _ => .content (some c7GoodTicketPayload)

/-- C7 (code bug): the `tenacity` retry decorator on `classify_message`
never retries anything, because the decorated body's catch-all `except`
swallows every exception and returns the fallback normally.  The retried
call always equals the single first attempt; in particular, with a
transient timeout on attempt 0 and a perfectly valid response available on
attempt 1, the result is the fallback (`"general_inquiry"`), even though
attempt 1 would have classified the message as a bug report. -/
theorem c7_transient_failures_are_never_retried :
    (∀ (cls dat : Nat → ModelResponse) (m p : String) (n1 n2 : Nat),
      classify_message_retried cls dat m p n1 n2 =
        .ok (classify_message (cls 0) (dat 0) m p n1 n2)) ∧
    classify_message_retried c7ClsAttempts c7DataAttempts "hello" "prod" 1234 5678 =
      .ok handle_fallback_case ∧
    (classify_message (c7ClsAttempts 1) (c7DataAttempts 1) "hello" "prod" 1234 5678).1 =
      .str "bug_report" ∧
    handle_fallback_case.1 = .str "general_inquiry" :=
  ⟨fun cls dat m p n1 n2 => rfl, rfl, rfl, rfl⟩

/-- A model result that omits `confidence_score` but carries the other two
required top-level keys. -/
def c8NoConfidenceResult : Json :=
  .obj [("message_type", .str "bug_report"),
        ("response_data", .obj [("ticket", .obj [])]),
        ("customer_response", .str "r")]

/-- C8 counterexample: in the processor pipeline an omitted
`confidence_score` is treated as a validation failure — the result is the
`0.3` fallback with `message_type = "general_inquiry"`, not the model's
`"bug_report"` with a `0.7` default. -/
theorem c8_counterexample :
    process_message (.content (some c8NoConfidenceResult)) "m" "p" =
      generate_fallback "m" "p" ∧
    getNumPath (process_message (.content (some c8NoConfidenceResult)) "m" "p")
      ["confidence_score"] = some (3/10) ∧
    getStrPath (process_message (.content (some c8NoConfidenceResult)) "m" "p")
      ["message_type"] = some "general_inquiry" ∧
    (3/10 : Rat) ≠ 7/10 :=
  ⟨rfl, rfl, rfl, by norm_num⟩

/-- C8 amended: only the classifier pipeline assigns the `0.7` default to
an omitted `confidence_score` (and keeps the model-reported
`message_type`); the processor pipeline treats the omission as a failure
and returns the `0.3` fallback. -/
theorem c8_missing_confidence_default_only_in_classifier :
    (∀ (fsr : List (String × Json)) (m p : String),
      (List.lookup "message_type" fsr).isSome = true →
      List.lookup "confidence_score" fsr = none →
      process_message (.content (some (.obj fsr))) m p = generate_fallback m p) ∧
    (∀ (cfs : List (String × Json)) (dataResp : ModelResponse) (p : String) (n1 n2 : Nat),
      List.lookup "confidence_score" cfs = none →
      (classify_message (.content (some (.obj cfs))) dataResp "hello" p n1 n2).2.1 =
        .num (7/10) ∧
      (classify_message (.content (some (.obj cfs))) dataResp "hello" p n1 n2).1 =
        (List.lookup "message_type" cfs).getD (.str "general_inquiry")) := by
  constructor
  · intro fsr m p h1 h2
    have h2n : (List.lookup "confidence_score" fsr).isSome = false := by rw [h2]; rfl
    simp [process_message, processMessageBody, parsedOf, pyContains, h1, h2n]
  · intro cfs dataResp p n1 n2 h
    constructor
    · rw [classify_hello_eq_body]
      simp [classifyBody, parsedOf, pyGet, h]
    · rw [classify_hello_eq_body]
      simp [classifyBody, parsedOf, pyGet, h]

/-- C8 witness: the amended clauses at concrete payloads — the processor
falls back on a missing confidence, and the classifier substitutes `0.7`
while keeping the reported `message_type`. -/
theorem c8_missing_confidence_default_only_in_classifier_witness :
    process_message (.content (some (.obj [("message_type", .str "bug_report"),
      ("response_data", .obj [])]))) "m" "p" = generate_fallback "m" "p" ∧
    (classify_message (.content (some (.obj [("message_type", .str "feature_request")])))
      (.content none) "hello" "p" 1 2).2.1 = .num (7/10) ∧
    (classify_message (.content (some (.obj [("message_type", .str "feature_request")])))
      (.content none) "hello" "p" 1 2).1 =
      (List.lookup "message_type" [("message_type", Json.str "feature_request")]).getD
        (.str "general_inquiry") :=
  ⟨c8_missing_confidence_default_only_in_classifier.1
      [("message_type", .str "bug_report"), ("response_data", .obj [])] "m" "p" rfl rfl,
   (c8_missing_confidence_default_only_in_classifier.2
      [("message_type", .str "feature_request")] (.content none) "p" 1 2 rfl).1,
   (c8_missing_confidence_default_only_in_classifier.2
      [("message_type", .str "feature_request")] (.content none) "p" 1 2 rfl).2⟩
